import Mathlib

/-!
# Release reporting step (`pkg/jx/cmd/step_report_releases.go`)

A shallow embedding of `StepReportReleasesOptions.Run` and of the three informer
handlers installed by `watchPipelineReleases`, followed by the properties of the
watch-and-relay behaviour that can be read off the code.

Modelling conventions

* A Go `error` is its message (`err.Error()`), so `fmt.Errorf("... %v", err)` is string
  concatenation and a `nil` error is `none`.
* The global logger is an append-only list of `LogEntry`.
* The sink (`PipelineEventsProvider.SendRelease`) is an external collaborator.  Its answer may
  depend on everything it was asked before, so it is a function of the list of releases it has
  already been called with and of the release at hand.  The list of releases handed to
  `SendRelease` so far is kept in the `World` as `sent`.
* A handler argument of type `interface{}` is an `Obj`: either a (non-nil) `*v1.Release` or any
  other value, of which only the `%#v` rendering is relevant to the code.
* `select {}` blocks the calling goroutine forever; a call that ends there has the outcome
  `Outcome.blocked` instead of `Outcome.returned`.
-/

namespace StepReportReleases

/-! ## Data model -/

/-- The fields of `metav1.ObjectMeta` used here: the identifier (namespace and name) and the
resource version of the object. -/
structure ObjectMeta where
  Name : String := ""
  Namespace : String := ""
  ResourceVersion : Nat := 0
deriving DecidableEq

/-- The `v1.Release` custom resource. -/
structure Release where
  ObjectMeta : ObjectMeta := {}
  Spec : String := ""
deriving DecidableEq

/-- The `v1.PipelineActivity` custom resource (only its metadata is read). -/
structure PipelineActivity where
  ObjectMeta : ObjectMeta := {}
deriving DecidableEq

/-- A value of type `interface{}` as received by an informer handler: a `*v1.Release`, or a
value of any other dynamic type, given by its `%#v` rendering. -/
inductive Obj where
  | release (r : Release)
  | other (goRepr : String)
deriving DecidableEq

/-- One line written through the `log` package. -/
inductive LogEntry where
  | info (msg : String)
  | warn (msg : String)
  | error (msg : String)
deriving DecidableEq

/-- The sink interface `pe.PipelineEventsProvider`: `SendRelease history release` is the error
returned by the call `SendRelease(release)` when `history` lists the releases of all earlier
calls (`none` for a `nil` error). -/
structure PipelineEventsProvider where
  SendRelease : List Release → Release → Option String

/-- Observable state: the releases passed to `SendRelease`, in call order, and the log. -/
structure World where
  sent : List Release := []
  log : List LogEntry := []
deriving DecidableEq

/-- A notification delivered by the informer to `cache.ResourceEventHandlerFuncs`. -/
inductive Notification where
  | add (obj : Obj)
  | update (oldObj newObj : Obj)
  | delete (obj : Obj)
deriving DecidableEq

/-! ## The handlers of `watchPipelineReleases` -/

/-- The local `activity := &v1.PipelineActivity{}` of `watchPipelineReleases`: a zero value
that is handed to `cache.NewInformer` as the expected object type and never assigned to. -/
def activity : PipelineActivity := {}

/-- `AddFunc` (lines 129-142). -/
def AddFunc (o : PipelineEventsProvider) (obj : Obj) (w : World) : World :=
  match obj with
  | Obj.other goRepr =>
    { w with log := w.log ++ [LogEntry.error ("Object is not a Release " ++ goRepr ++ "\n")] }
  | Obj.release release =>
    let w1 : World :=
      { w with log := w.log ++
          [LogEntry.info ("New activity added " ++ release.ObjectMeta.Name ++ "\n")] }
    let err := o.SendRelease w1.sent release
    let w2 : World := { w1 with sent := w1.sent ++ [release] }
    match err with
    | some e => { w2 with log := w2.log ++ [LogEntry.error (e ++ "\n")] }
    | none => w2

/-- `UpdateFunc` (lines 143-156). -/
def UpdateFunc (o : PipelineEventsProvider) (_oldObj newObj : Obj) (w : World) : World :=
  match newObj with
  | Obj.other goRepr =>
    { w with log := w.log ++
        [LogEntry.error ("Object is not a PipelineActivity " ++ goRepr ++ "\n")] }
  | Obj.release release =>
    let w1 : World :=
      { w with log := w.log ++
          [LogEntry.info ("Updated activity added " ++ activity.ObjectMeta.Name ++ "\n")] }
    let err := o.SendRelease w1.sent release
    let w2 : World := { w1 with sent := w1.sent ++ [release] }
    match err with
    | some e => { w2 with log := w2.log ++ [LogEntry.error (e ++ "\n")] }
    | none => w2

/-- `DeleteFunc` (lines 157-160): the body is empty. -/
def DeleteFunc (_o : PipelineEventsProvider) (_obj : Obj) (w : World) : World :=
  w

/-- Dispatch of one notification to its handler, as `cache.ResourceEventHandlerFuncs` does. -/
def handle (o : PipelineEventsProvider) (n : Notification) (w : World) : World :=
  match n with
  | Notification.add obj => AddFunc o obj w
  | Notification.update oldObj newObj => UpdateFunc o oldObj newObj w
  | Notification.delete obj => DeleteFunc o obj w

/-- The informer delivers notifications one after the other. -/
def deliver (o : PipelineEventsProvider) (ns : List Notification) (w : World) : World :=
  ns.foldl (fun acc n => handle o n acc) w

/-! ## `watchPipelineReleases` and `Run` -/

/-- How a call ends: it returns an error value (`none` is `nil`), or it never returns. -/
inductive Outcome where
  | returned (err : Option String)
  | blocked
deriving DecidableEq

/-- State of the `stop` channel: whether it was closed and how many values were written. -/
structure Chan where
  closed : Bool := false
  written : Nat := 0
deriving DecidableEq

/-- The `make(chan struct{})` of line 164. -/
def makeChan : Chan := {}

/-- The calls `Run` makes, in program order. -/
inductive Step where
  | KubeClient
  | CreateJXClient
  | CreateApiExtensionsClient
  | RegisterReleaseCRD
  | ensureAddonServiceAvailable
  | getAddonAuthByKind
  | NewElasticsearchProvider
  | watchPipelineReleases
deriving DecidableEq

/-- The command line options; `Watch` is bound to `--watch`/`-w` with default `false`
(line 64). -/
structure StepReportReleasesOptions where
  Watch : Bool := false
  currentNamespace : String := ""
deriving DecidableEq

/-- The collaborators of `Run`, none of which is defined in this file of the repository.  Each
is given by its result; `JX`, `Apis` and `Auth` are the types of the jx client, the API
extensions client and the addon credentials.  `informer jxClient ns` is what the informer built
from `cache.NewListWatchFromClient(jxClient..., "release", ns, ...)` has delivered to the
handlers at the moment of observation.  `esServiceName` and `ValueKindRelease` are package
constants declared elsewhere. -/
structure Collaborators (JX Apis Auth : Type) where
  esServiceName : String
  ValueKindRelease : String
  KubeClient : Except String Unit
  CreateJXClient : Except String JX
  CreateApiExtensionsClient : Except String Apis
  RegisterReleaseCRD : Apis → Option String
  ensureAddonServiceAvailable : String → Except String String
  getAddonAuthByKind : String → String → Except String (String × Auth)
  NewElasticsearchProvider : String → Auth → Except String PipelineEventsProvider
  informer : JX → String → List Notification

/-- What is known of a call of `watchPipelineReleases` or `Run`: the steps executed with the
error each returned, the observable state, the `stop` channel if it was made, and how the call
ends. -/
structure Result where
  trace : List (Step × Option String) := []
  world : World := {}
  stop : Option Chan := none
  outcome : Outcome
deriving DecidableEq

/-- `watchPipelineReleases` (lines 119-169): builds the informer with the three handlers, makes
the `stop` channel, starts `controller.Run(stop)` in a goroutine, which delivers the
notifications, and blocks in `select {}`.  The parameter of `controller.Run` is a receive-only
channel, and the function itself performs no operation on `stop` after making it. -/
def watchPipelineReleases {JX Apis Auth : Type} (c : Collaborators JX Apis Auth)
    (o : PipelineEventsProvider) (jxClient : JX) (ns : String) (w : World) : Result :=
  let stop := makeChan
  { trace := [(Step.watchPipelineReleases, none)]
    world := deliver o (c.informer jxClient ns) w
    stop := some stop
    outcome := Outcome.blocked }

/-- `StepReportReleasesOptions.Run` (lines 69-117). -/
def Run {JX Apis Auth : Type} (o : StepReportReleasesOptions)
    (c : Collaborators JX Apis Auth) : Result :=
  match c.KubeClient with
  | Except.error err =>
    { trace := [(Step.KubeClient, some err)]
      outcome := Outcome.returned (some ("cannot connect to kubernetes cluster: " ++ err)) }
  | Except.ok _ =>
  let t1 : List (Step × Option String) := [(Step.KubeClient, none)]
  match c.CreateJXClient with
  | Except.error err =>
    { trace := t1 ++ [(Step.CreateJXClient, some err)]
      outcome := Outcome.returned (some ("cannot create jx client: " ++ err)) }
  | Except.ok jxClient =>
  let t2 := t1 ++ [(Step.CreateJXClient, none)]
  match c.CreateApiExtensionsClient with
  | Except.error err =>
    { trace := t2 ++ [(Step.CreateApiExtensionsClient, some err)]
      outcome := Outcome.returned (some err) }
  | Except.ok apisClient =>
  let t3 := t2 ++ [(Step.CreateApiExtensionsClient, none)]
  match c.RegisterReleaseCRD apisClient with
  | some err =>
    { trace := t3 ++ [(Step.RegisterReleaseCRD, some err)]
      outcome := Outcome.returned (some err) }
  | none =>
  let t4 := t3 ++ [(Step.RegisterReleaseCRD, none)]
  match c.ensureAddonServiceAvailable c.esServiceName with
  | Except.error err =>
    { trace := t4 ++ [(Step.ensureAddonServiceAvailable, some err)]
      world := { log := [LogEntry.warn ("no " ++ c.esServiceName ++
        " service found, are you in your teams dev environment?  Type `jx env` to switch.\n")] }
      outcome := Outcome.returned (some
        ("try running `jx create addon pipeline-events` in your teams dev environment: "
          ++ err)) }
  | Except.ok externalURL =>
  let t5 := t4 ++ [(Step.ensureAddonServiceAvailable, none)]
  match c.getAddonAuthByKind c.ValueKindRelease externalURL with
  | Except.error err =>
    { trace := t5 ++ [(Step.getAddonAuthByKind, some err)]
      outcome := Outcome.returned (some
        ("error getting " ++ c.ValueKindRelease ++ " auth details, " ++ err)) }
  | Except.ok (server, auth) =>
  let t6 := t5 ++ [(Step.getAddonAuthByKind, none)]
  match c.NewElasticsearchProvider server auth with
  | Except.error err =>
    { trace := t6 ++ [(Step.NewElasticsearchProvider, some err)]
      outcome := Outcome.returned (some ("error creating elasticsearch provider, " ++ err)) }
  | Except.ok provider =>
  let t7 := t6 ++ [(Step.NewElasticsearchProvider, none)]
  let r := watchPipelineReleases c provider jxClient o.currentNamespace {}
  match r.outcome with
  | Outcome.returned (some err) =>
    { r with trace := t7 ++ r.trace, outcome := Outcome.returned (some err) }
  | Outcome.returned none =>
    { r with trace := t7 ++ r.trace, outcome := Outcome.returned none }
  | Outcome.blocked =>
    { r with trace := t7 ++ r.trace, outcome := Outcome.blocked }

/-! ## Vocabulary of the properties -/

/-- The release a notification carries: the object of an Add, the new object of an Update. -/
def payload : Notification → Option Release
  | Notification.add (Obj.release r) => some r
  | Notification.update _ (Obj.release r) => some r
  | _ => none

/-- An Add or Update notification whose payload is not a Release. -/
def malformed : Notification → Bool
  | Notification.add (Obj.other _) => true
  | Notification.update _ (Obj.other _) => true
  | _ => false

/-- The identifier of a release: namespace and name. -/
def ident (r : Release) : String × String :=
  (r.ObjectMeta.Namespace, r.ObjectMeta.Name)

/-- The generation marker last observed for an identifier in a history of notifications.  The
code keeps no such record; this is the notion the properties refer to. -/
def lastObserved (hist : List Notification) (id : String × String) : Option Nat :=
  (((hist.filterMap payload).filter (fun r => ident r = id)).getLast?).map
    (fun r => r.ObjectMeta.ResourceVersion)

/-- Every release-carrying notification of `ns` has a generation marker strictly above the one
last observed for its identifier in `hist` and the notifications before it. -/
def increasing (hist : List Notification) : List Notification → Bool
  | [] => true
  | n :: ns =>
    (match payload n with
      | none => true
      | some r =>
        match lastObserved hist (ident r) with
        | none => true
        | some g => decide (g < r.ObjectMeta.ResourceVersion))
    && increasing (hist ++ [n]) ns

/-- Whether the call reached `watchPipelineReleases`. -/
def watchStarted (r : Result) : Bool :=
  r.trace.any (fun x => decide (x.1 = Step.watchPipelineReleases))

/-- The seven bootstrap steps in program order, each having returned no error. -/
def bootstrapTrace : List (Step × Option String) :=
  [(Step.KubeClient, none), (Step.CreateJXClient, none),
   (Step.CreateApiExtensionsClient, none), (Step.RegisterReleaseCRD, none),
   (Step.ensureAddonServiceAvailable, none), (Step.getAddonAuthByKind, none),
   (Step.NewElasticsearchProvider, none)]

/-- The trace of a `Run` in which all seven bootstrap steps succeed and the watch starts. -/
def fullTrace : List (Step × Option String) :=
  bootstrapTrace ++ [(Step.watchPipelineReleases, none)]

/-- All seven bootstrap steps return no error, each called on the results of the steps before
it, as `Run` calls them. -/
def bootstrapSucceeds {JX Apis Auth : Type} (c : Collaborators JX Apis Auth) : Prop :=
  ∃ (u : Unit) (jx : JX) (apis : Apis) (url server : String) (auth : Auth)
    (p : PipelineEventsProvider),
    c.KubeClient = Except.ok u ∧ c.CreateJXClient = Except.ok jx ∧
    c.CreateApiExtensionsClient = Except.ok apis ∧ c.RegisterReleaseCRD apis = none ∧
    c.ensureAddonServiceAvailable c.esServiceName = Except.ok url ∧
    c.getAddonAuthByKind c.ValueKindRelease url = Except.ok (server, auth) ∧
    c.NewElasticsearchProvider server auth = Except.ok p

/-- One of the seven bootstrap steps returns an error (a step that takes the result of an
earlier step is called on that result). -/
def someStepFails {JX Apis Auth : Type} (c : Collaborators JX Apis Auth) : Prop :=
  (∃ e, c.KubeClient = Except.error e) ∨
  (∃ e, c.CreateJXClient = Except.error e) ∨
  (∃ e, c.CreateApiExtensionsClient = Except.error e) ∨
  (∃ apis e, c.CreateApiExtensionsClient = Except.ok apis ∧
    c.RegisterReleaseCRD apis = some e) ∨
  (∃ e, c.ensureAddonServiceAvailable c.esServiceName = Except.error e) ∨
  (∃ url e, c.ensureAddonServiceAvailable c.esServiceName = Except.ok url ∧
    c.getAddonAuthByKind c.ValueKindRelease url = Except.error e) ∨
  (∃ url server auth e, c.ensureAddonServiceAvailable c.esServiceName = Except.ok url ∧
    c.getAddonAuthByKind c.ValueKindRelease url = Except.ok (server, auth) ∧
    c.NewElasticsearchProvider server auth = Except.error e)

/-! ## Concrete inputs -/

/-- Release `jx/r1` at resource version 1. -/
def r1 : Release := { ObjectMeta := { Name := "r1", Namespace := "jx", ResourceVersion := 1 } }

/-- Release `jx/r1` at resource version 2. -/
def r1v2 : Release :=
  { ObjectMeta := { Name := "r1", Namespace := "jx", ResourceVersion := 2 }, Spec := "v2" }

/-- Release `jx/r2` at resource version 5. -/
def r2 : Release := { ObjectMeta := { Name := "r2", Namespace := "jx", ResourceVersion := 5 } }

/-- A sink that accepts every release. -/
def okProvider : PipelineEventsProvider := ⟨fun _ _ => none⟩

/-- A sink that rejects every release. -/
def failProvider : PipelineEventsProvider := ⟨fun _ _ => some "connection refused"⟩

/-- A sink that rejects its first call only. -/
def flakyProvider : PipelineEventsProvider :=
  ⟨fun history _ => if history.length = 0 then some "connection refused" else none⟩

/-- Three notifications: `jx/r1` added, `jx/r2` added, `jx/r1` updated to version 2. -/
def demoNotifications : List Notification :=
  [Notification.add (Obj.release r1), Notification.add (Obj.release r2),
    Notification.update (Obj.release r1) (Obj.release r1v2)]

/-- Collaborators whose bootstrap steps all succeed, with sink `o` and an informer that has
delivered `ns`. -/
def demoCollaborators (o : PipelineEventsProvider) (ns : List Notification) :
    Collaborators Unit Unit Unit :=
  { esServiceName := "jx-pipeline-events-elasticsearch"
    ValueKindRelease := "Release"
    KubeClient := Except.ok ()
    CreateJXClient := Except.ok ()
    CreateApiExtensionsClient := Except.ok ()
    RegisterReleaseCRD := fun _ => none
    ensureAddonServiceAvailable := fun _ => Except.ok "http://es.jx.example"
    getAddonAuthByKind := fun _ url => Except.ok (url, ())
    NewElasticsearchProvider := fun _ _ => Except.ok o
    informer := fun _ _ => ns }

/-- Collaborators for which registering the Release CRD is refused. -/
def noCRDCollaborators : Collaborators Unit Unit Unit :=
  { demoCollaborators okProvider [Notification.add (Obj.release r1)] with
    RegisterReleaseCRD := fun _ => some "forbidden" }

/-! ## Lemmas on the handlers -/

theorem deliver_cons (o : PipelineEventsProvider) (n : Notification) (ns : List Notification)
    (w : World) : deliver o (n :: ns) w = deliver o ns (handle o n w) := rfl

theorem deliver_append (o : PipelineEventsProvider) (ns ms : List Notification) (w : World) :
    deliver o (ns ++ ms) w = deliver o ms (deliver o ns w) := by
  simp [deliver, List.foldl_append]

/-- A notification carrying a release makes exactly one `SendRelease` call, with that release;
the log gains one informational line and, if the call failed, one error line with the error. -/
theorem handle_of_payload (o : PipelineEventsProvider) (n : Notification) (r : Release)
    (w : World) (h : payload n = some r) :
    ∃ line, handle o n w =
      { sent := w.sent ++ [r]
        log := w.log ++ LogEntry.info line ::
          (match o.SendRelease w.sent r with
            | some e => [LogEntry.error (e ++ "\n")]
            | none => []) } := by
  cases n with
  | add obj =>
    cases obj with
    | other x => simp [payload] at h
    | release r0 =>
      simp only [payload, Option.some.injEq] at h
      subst h
      refine ⟨"New activity added " ++ r0.ObjectMeta.Name ++ "\n", ?_⟩
      simp only [handle, AddFunc]
      cases o.SendRelease w.sent r0 <;> simp
  | update oldObj obj =>
    cases obj with
    | other x => simp [payload] at h
    | release r0 =>
      simp only [payload, Option.some.injEq] at h
      subst h
      refine ⟨"Updated activity added " ++ activity.ObjectMeta.Name ++ "\n", ?_⟩
      simp only [handle, UpdateFunc]
      cases o.SendRelease w.sent r0 <;> simp
  | delete obj => simp [payload] at h

theorem handle_sent_of_payload (o : PipelineEventsProvider) (n : Notification) (r : Release)
    (w : World) (h : payload n = some r) : (handle o n w).sent = w.sent ++ [r] := by
  obtain ⟨line, hl⟩ := handle_of_payload o n r w h
  rw [hl]

/-- A malformed notification writes one error line and nothing else. -/
theorem handle_of_malformed (o : PipelineEventsProvider) (n : Notification) (w : World)
    (h : malformed n = true) :
    ∃ msg, handle o n w = { w with log := w.log ++ [LogEntry.error msg] } := by
  cases n with
  | add obj =>
    cases obj with
    | other x => exact ⟨_, rfl⟩
    | release r0 => simp [malformed] at h
  | update oldObj obj =>
    cases obj with
    | other x => exact ⟨_, rfl⟩
    | release r0 => simp [malformed] at h
  | delete obj => simp [malformed] at h

theorem handle_sent_of_none (o : PipelineEventsProvider) (n : Notification) (w : World)
    (h : payload n = none) : (handle o n w).sent = w.sent := by
  cases n with
  | add obj =>
    cases obj with
    | other x => rfl
    | release r0 => simp [payload] at h
  | update oldObj obj =>
    cases obj with
    | other x => rfl
    | release r0 => simp [payload] at h
  | delete obj => rfl

/-- The releases handed to the sink are the payloads of the notifications, in order. -/
theorem deliver_sent (o : PipelineEventsProvider) (ns : List Notification) (w : World) :
    (deliver o ns w).sent = w.sent ++ ns.filterMap payload := by
  induction ns generalizing w with
  | nil => simp [deliver]
  | cons n ns ih =>
    rw [deliver_cons, ih]
    cases hp : payload n with
    | none => simp [List.filterMap_cons, hp, handle_sent_of_none o n w hp]
    | some r => simp [List.filterMap_cons, hp, handle_sent_of_payload o n r w hp]

theorem filterMap_payload_of_isSome (ns : List Notification)
    (hrel : ∀ n ∈ ns, (payload n).isSome = true) :
    (ns.filterMap payload).map some = ns.map payload := by
  induction ns with
  | nil => rfl
  | cons n ns ih =>
    obtain ⟨r, hr⟩ := Option.isSome_iff_exists.mp (hrel n (List.mem_cons_self n ns))
    have ih2 := ih (fun m hm => hrel m (List.mem_cons_of_mem n hm))
    simp [List.filterMap_cons, hr, ih2]

/-- The log is write-only: a handler behaves the same whatever was logged before. -/
theorem handle_log_frame (o : PipelineEventsProvider) (n : Notification) (s : List Release)
    (l : List LogEntry) :
    handle o n { sent := s, log := l } =
      { sent := (handle o n { sent := s, log := [] }).sent
        log := l ++ (handle o n { sent := s, log := [] }).log } := by
  cases n with
  | add obj =>
    cases obj with
    | other x => simp [handle, AddFunc]
    | release r0 =>
      simp only [handle, AddFunc]
      cases o.SendRelease s r0 <;> simp
  | update oldObj obj =>
    cases obj with
    | other x => simp [handle, UpdateFunc]
    | release r0 =>
      simp only [handle, UpdateFunc]
      cases o.SendRelease s r0 <;> simp
  | delete obj => simp [handle, DeleteFunc]

theorem deliver_log_frame (o : PipelineEventsProvider) (ns : List Notification)
    (s : List Release) (l : List LogEntry) :
    deliver o ns { sent := s, log := l } =
      { sent := (deliver o ns { sent := s, log := [] }).sent
        log := l ++ (deliver o ns { sent := s, log := [] }).log } := by
  induction ns generalizing s l with
  | nil => simp [deliver]
  | cons n ns ih =>
    rw [deliver_cons, deliver_cons, handle_log_frame o n s l, ih]
    rw [ih (handle o n { sent := s, log := [] }).sent (handle o n { sent := s, log := [] }).log]
    simp [List.append_assoc]

/-! ## Duplicate and stale notifications -/

/-- C1, as stated, fails: release `jx/r1` at resource version 1 has been observed (last
observed marker 1), and a replayed notification for the identical object (an Add, or an Update
whose old and new objects are equal) still makes a `SendRelease` call, so the sink receives the
release a second time. -/
theorem C1_replay_is_sent_again :
    lastObserved [Notification.add (Obj.release r1)] (ident r1) = some 1 ∧
    r1.ObjectMeta.ResourceVersion ≤ 1 ∧
    (deliver okProvider [Notification.add (Obj.release r1)] {}).sent = [r1] ∧
    (handle okProvider (Notification.add (Obj.release r1))
      (deliver okProvider [Notification.add (Obj.release r1)] {})).sent = [r1, r1] ∧
    (handle okProvider (Notification.update (Obj.release r1) (Obj.release r1))
      (deliver okProvider [Notification.add (Obj.release r1)] {})).sent = [r1, r1] := by
  decide

/-- C1, amended: every Add or Update notification carrying a release makes exactly one
`SendRelease` call with that release, whatever was observed before and whatever its generation
marker; in particular a replayed identical object (an Add, or an Update whose old and new
objects are equal) adds one event at the sink. -/
theorem C1_every_release_notification_is_sent (o : PipelineEventsProvider)
    (hist : List Notification) (n : Notification) (r : Release)
    (h : payload n = some r) :
    (handle o n (deliver o hist {})).sent = (deliver o hist {}).sent ++ [r] ∧
    (deliver o (hist ++ [Notification.add (Obj.release r)]) {}).sent =
      (deliver o hist {}).sent ++ [r] ∧
    (deliver o (hist ++ [Notification.update (Obj.release r) (Obj.release r)]) {}).sent =
      (deliver o hist {}).sent ++ [r] := by
  refine ⟨handle_sent_of_payload o n r _ h, ?_, ?_⟩
  · rw [deliver_append]
    exact handle_sent_of_payload o (Notification.add (Obj.release r)) r _ rfl
  · rw [deliver_append]
    exact handle_sent_of_payload o (Notification.update (Obj.release r) (Obj.release r)) r _ rfl

/-- Witness for C1 (amended): the replay of `jx/r1`. -/
theorem C1_every_release_notification_is_sent_witness :
    payload (Notification.add (Obj.release r1)) = some r1 ∧
    (handle okProvider (Notification.add (Obj.release r1))
        (deliver okProvider [Notification.add (Obj.release r1)] {})).sent =
      (deliver okProvider [Notification.add (Obj.release r1)] {}).sent ++ [r1] :=
  ⟨rfl, (C1_every_release_notification_is_sent okProvider [Notification.add (Obj.release r1)]
    (Notification.add (Obj.release r1)) r1 rfl).1⟩

/-! ## One event per notification -/

/-- C2: for every finite sequence of Add/Update notifications that each carry a release, with
strictly increasing generation markers per identifier, and for every sink (failing or not),
the releases passed to `SendRelease` from the start of the engine are as many as the
notifications, and the i-th one is the release of the i-th notification (the object of an Add,
the new object of an Update). -/
theorem C2_one_event_per_notification (o : PipelineEventsProvider) (ns : List Notification)
    (hrel : ∀ n ∈ ns, (payload n).isSome = true) (_hinc : increasing [] ns = true) :
    (deliver o ns {}).sent.length = ns.length ∧
    (deliver o ns {}).sent.map some = ns.map payload ∧
    ∀ i, i < ns.length → (deliver o ns {}).sent[i]? = (ns[i]?).bind payload := by
  have hmap : (deliver o ns {}).sent.map some = ns.map payload := by
    rw [deliver_sent]
    simpa using filterMap_payload_of_isSome ns hrel
  refine ⟨?_, hmap, ?_⟩
  · have := congrArg List.length hmap
    simpa using this
  · intro i _
    have h1 : ((deliver o ns {}).sent.map some)[i]? = (ns.map payload)[i]? := by rw [hmap]
    rw [List.getElem?_map, List.getElem?_map] at h1
    cases hs : (deliver o ns {}).sent[i]? with
    | none =>
      rw [hs] at h1
      cases hn : ns[i]? with
      | none => rfl
      | some n => rw [hn] at h1; simp at h1
    | some r =>
      rw [hs] at h1
      cases hn : ns[i]? with
      | none => rw [hn] at h1; simp at h1
      | some n =>
        rw [hn] at h1
        simp only [Option.map_some', Option.some.injEq] at h1
        simp [h1]

/-- Witness for C2: `jx/r1` added, `jx/r2` added, `jx/r1` updated to resource version 2, with
a sink whose first call fails. -/
theorem C2_one_event_per_notification_witness :
    (∀ n ∈ demoNotifications, (payload n).isSome = true) ∧
    increasing [] demoNotifications = true ∧
    (deliver flakyProvider demoNotifications {}).sent.length = demoNotifications.length ∧
    (deliver flakyProvider demoNotifications {}).sent.map some =
      demoNotifications.map payload ∧
    (deliver flakyProvider demoNotifications {}).sent = [r1, r2, r1v2] :=
  ⟨by decide, by decide,
    (C2_one_event_per_notification flakyProvider demoNotifications (by decide) (by decide)).1,
    (C2_one_event_per_notification flakyProvider demoNotifications (by decide) (by decide)).2.1,
    by decide⟩

/-! ## Deletions -/

/-- C3: for every Delete notification, whatever its payload, the delete handler makes no
`SendRelease` call and leaves the observable state (releases received by the sink, log)
unchanged; a run with the notification is the run without it. -/
theorem C3_delete_changes_nothing (o : PipelineEventsProvider) (obj : Obj) (w : World)
    (before after : List Notification) :
    DeleteFunc o obj w = w ∧
    (handle o (Notification.delete obj) w).sent = w.sent ∧
    (handle o (Notification.delete obj) w).log = w.log ∧
    deliver o (before ++ Notification.delete obj :: after) w = deliver o (before ++ after) w := by
  refine ⟨rfl, rfl, rfl, ?_⟩
  rw [deliver_append, deliver_append, deliver_cons]
  rfl

/-! ## Malformed notifications -/

/-- C4: for every Add or Update notification whose payload is not a release, the handler makes
no `SendRelease` call and writes exactly one error log entry; it returns normally (`handle` is
total), and every later sequence of notifications is handled as if the malformed one had not
occurred: the same releases reach the sink and the same log lines follow. -/
theorem C4_malformed_is_skipped (o : PipelineEventsProvider) (n : Notification) (w : World)
    (h : malformed n = true) :
    ∃ msg,
      handle o n w = { sent := w.sent, log := w.log ++ [LogEntry.error msg] } ∧
      ∀ later : List Notification,
        (deliver o later (handle o n w)).sent = (deliver o later w).sent ∧
        (deliver o later (handle o n w)).log =
          w.log ++ LogEntry.error msg :: (deliver o later w).log.drop w.log.length := by
  obtain ⟨msg, hmsg⟩ := handle_of_malformed o n w h
  refine ⟨msg, hmsg, ?_⟩
  intro later
  rw [hmsg]
  have h1 := deliver_log_frame o later w.sent (w.log ++ [LogEntry.error msg])
  have h2 := deliver_log_frame o later w.sent w.log
  have hw : ({ sent := w.sent, log := w.log } : World) = w := rfl
  rw [hw] at h2
  rw [h1, h2]
  simp

/-- Witness for C4: an Add whose object is a pipeline activity. -/
theorem C4_malformed_is_skipped_witness :
    malformed (Notification.add (Obj.other "&v1.PipelineActivity\x7b\x7d")) = true ∧
    ∃ msg,
      handle okProvider (Notification.add (Obj.other "&v1.PipelineActivity\x7b\x7d")) {} =
        { sent := [], log := [] ++ [LogEntry.error msg] } ∧
      ∀ later : List Notification,
        (deliver okProvider later
          (handle okProvider (Notification.add (Obj.other "&v1.PipelineActivity\x7b\x7d"))
            {})).sent = (deliver okProvider later {}).sent ∧
        (deliver okProvider later
          (handle okProvider (Notification.add (Obj.other "&v1.PipelineActivity\x7b\x7d"))
            {})).log =
          [] ++ LogEntry.error msg :: (deliver okProvider later {}).log.drop 0 :=
  ⟨rfl, C4_malformed_is_skipped okProvider
    (Notification.add (Obj.other "&v1.PipelineActivity\x7b\x7d")) {} rfl⟩

/-! ## Lemmas on `Run` -/

/-- The two ways a `Run` can go: all seven bootstrap steps succeed, the watch starts and the
call blocks; or the bootstrap steps succeed up to one that returns an error, and `Run` returns
an error at that point. -/
theorem Run_cases {JX Apis Auth : Type} (o : StepReportReleasesOptions)
    (c : Collaborators JX Apis Auth) :
    ((Run o c).trace = fullTrace ∧ (Run o c).outcome = Outcome.blocked ∧
      (Run o c).stop = some makeChan ∧ watchStarted (Run o c) = true) ∨
    (∃ pre s e err, (Run o c).trace = pre ++ [(s, some e)] ∧
      pre ++ [(s, none)] <+: bootstrapTrace ∧
      (Run o c).outcome = Outcome.returned (some err) ∧
      (Run o c).stop = none ∧ watchStarted (Run o c) = false) := by
  generalize hR : Run o c = R
  unfold Run at hR
  simp only [watchPipelineReleases] at hR
  split at hR
  · subst hR
    exact Or.inr ⟨[], Step.KubeClient, _, _, rfl, by decide, rfl, rfl, by simp [watchStarted]⟩
  split at hR
  · subst hR
    exact Or.inr ⟨_, Step.CreateJXClient, _, _, rfl, by decide, rfl, rfl,
      by simp [watchStarted]⟩
  split at hR
  · subst hR
    exact Or.inr ⟨_, Step.CreateApiExtensionsClient, _, _, rfl, by decide, rfl, rfl,
      by simp [watchStarted]⟩
  split at hR
  · subst hR
    exact Or.inr ⟨_, Step.RegisterReleaseCRD, _, _, rfl, by decide, rfl, rfl,
      by simp [watchStarted]⟩
  split at hR
  · subst hR
    exact Or.inr ⟨_, Step.ensureAddonServiceAvailable, _, _, rfl, by decide, rfl, rfl,
      by simp [watchStarted]⟩
  split at hR
  · subst hR
    exact Or.inr ⟨_, Step.getAddonAuthByKind, _, _, rfl, by decide, rfl, rfl,
      by simp [watchStarted]⟩
  split at hR
  · subst hR
    exact Or.inr ⟨_, Step.NewElasticsearchProvider, _, _, rfl, by decide, rfl, rfl,
      by simp [watchStarted]⟩
  subst hR
  exact Or.inl ⟨rfl, rfl, rfl, by simp [watchStarted]⟩

/-- `Run` when `KubeClient` returns an error. -/
theorem Run_of_KubeClient_error {JX Apis Auth : Type} (o : StepReportReleasesOptions)
    (c : Collaborators JX Apis Auth) (e : String) (h1 : c.KubeClient = Except.error e) :
    Run o c =
      { trace := [(Step.KubeClient, some e)]
        outcome := Outcome.returned (some ("cannot connect to kubernetes cluster: " ++ e)) } := by
  simp only [Run, h1]

/-- `Run` when `CreateJXClient` returns an error. -/
theorem Run_of_CreateJXClient_error {JX Apis Auth : Type} (o : StepReportReleasesOptions)
    (c : Collaborators JX Apis Auth) (u : Unit) (e : String)
    (h1 : c.KubeClient = Except.ok u) (h2 : c.CreateJXClient = Except.error e) :
    Run o c =
      { trace := [(Step.KubeClient, none), (Step.CreateJXClient, some e)]
        outcome := Outcome.returned (some ("cannot create jx client: " ++ e)) } := by
  simp only [Run, h1, h2]
  rfl

/-- `Run` when `CreateApiExtensionsClient` returns an error. -/
theorem Run_of_CreateApiExtensionsClient_error {JX Apis Auth : Type}
    (o : StepReportReleasesOptions) (c : Collaborators JX Apis Auth) (u : Unit) (jx : JX)
    (e : String) (h1 : c.KubeClient = Except.ok u) (h2 : c.CreateJXClient = Except.ok jx)
    (h3 : c.CreateApiExtensionsClient = Except.error e) :
    Run o c =
      { trace := [(Step.KubeClient, none), (Step.CreateJXClient, none),
          (Step.CreateApiExtensionsClient, some e)]
        outcome := Outcome.returned (some e) } := by
  simp only [Run, h1, h2, h3]
  rfl

/-- `Run` when `RegisterReleaseCRD` returns an error. -/
theorem Run_of_RegisterReleaseCRD_error {JX Apis Auth : Type} (o : StepReportReleasesOptions)
    (c : Collaborators JX Apis Auth) (u : Unit) (jx : JX) (apis : Apis) (e : String)
    (h1 : c.KubeClient = Except.ok u) (h2 : c.CreateJXClient = Except.ok jx)
    (h3 : c.CreateApiExtensionsClient = Except.ok apis)
    (h4 : c.RegisterReleaseCRD apis = some e) :
    Run o c =
      { trace := [(Step.KubeClient, none), (Step.CreateJXClient, none),
          (Step.CreateApiExtensionsClient, none), (Step.RegisterReleaseCRD, some e)]
        outcome := Outcome.returned (some e) } := by
  simp only [Run, h1, h2, h3, h4]
  rfl

/-- `Run` when `ensureAddonServiceAvailable` returns an error. -/
theorem Run_of_ensureAddonServiceAvailable_error {JX Apis Auth : Type}
    (o : StepReportReleasesOptions) (c : Collaborators JX Apis Auth) (u : Unit) (jx : JX)
    (apis : Apis) (e : String)
    (h1 : c.KubeClient = Except.ok u) (h2 : c.CreateJXClient = Except.ok jx)
    (h3 : c.CreateApiExtensionsClient = Except.ok apis)
    (h4 : c.RegisterReleaseCRD apis = none)
    (h5 : c.ensureAddonServiceAvailable c.esServiceName = Except.error e) :
    Run o c =
      { trace := [(Step.KubeClient, none), (Step.CreateJXClient, none),
          (Step.CreateApiExtensionsClient, none), (Step.RegisterReleaseCRD, none),
          (Step.ensureAddonServiceAvailable, some e)]
        world := { log := [LogEntry.warn ("no " ++ c.esServiceName ++
          " service found, are you in your teams dev environment?  Type `jx env` to switch.\n")] }
        outcome := Outcome.returned (some
          ("try running `jx create addon pipeline-events` in your teams dev environment: "
            ++ e)) } := by
  simp only [Run, h1, h2, h3, h4, h5]
  rfl

/-- `Run` when `getAddonAuthByKind` returns an error. -/
theorem Run_of_getAddonAuthByKind_error {JX Apis Auth : Type} (o : StepReportReleasesOptions)
    (c : Collaborators JX Apis Auth) (u : Unit) (jx : JX) (apis : Apis) (url e : String)
    (h1 : c.KubeClient = Except.ok u) (h2 : c.CreateJXClient = Except.ok jx)
    (h3 : c.CreateApiExtensionsClient = Except.ok apis)
    (h4 : c.RegisterReleaseCRD apis = none)
    (h5 : c.ensureAddonServiceAvailable c.esServiceName = Except.ok url)
    (h6 : c.getAddonAuthByKind c.ValueKindRelease url = Except.error e) :
    Run o c =
      { trace := [(Step.KubeClient, none), (Step.CreateJXClient, none),
          (Step.CreateApiExtensionsClient, none), (Step.RegisterReleaseCRD, none),
          (Step.ensureAddonServiceAvailable, none), (Step.getAddonAuthByKind, some e)]
        outcome := Outcome.returned (some
          ("error getting " ++ c.ValueKindRelease ++ " auth details, " ++ e)) } := by
  simp only [Run, h1, h2, h3, h4, h5, h6]
  rfl

/-- `Run` when `NewElasticsearchProvider` returns an error. -/
theorem Run_of_NewElasticsearchProvider_error {JX Apis Auth : Type}
    (o : StepReportReleasesOptions) (c : Collaborators JX Apis Auth) (u : Unit) (jx : JX)
    (apis : Apis) (url server : String) (auth : Auth) (e : String)
    (h1 : c.KubeClient = Except.ok u) (h2 : c.CreateJXClient = Except.ok jx)
    (h3 : c.CreateApiExtensionsClient = Except.ok apis)
    (h4 : c.RegisterReleaseCRD apis = none)
    (h5 : c.ensureAddonServiceAvailable c.esServiceName = Except.ok url)
    (h6 : c.getAddonAuthByKind c.ValueKindRelease url = Except.ok (server, auth))
    (h7 : c.NewElasticsearchProvider server auth = Except.error e) :
    Run o c =
      { trace := [(Step.KubeClient, none), (Step.CreateJXClient, none),
          (Step.CreateApiExtensionsClient, none), (Step.RegisterReleaseCRD, none),
          (Step.ensureAddonServiceAvailable, none), (Step.getAddonAuthByKind, none),
          (Step.NewElasticsearchProvider, some e)]
        outcome := Outcome.returned (some ("error creating elasticsearch provider, " ++ e)) } := by
  simp only [Run, h1, h2, h3, h4, h5, h6, h7]
  rfl

/-- `Run` when all seven bootstrap steps succeed: the watch runs with the provider made by
`NewElasticsearchProvider`, on the jx client and the current namespace. -/
theorem Run_of_bootstrap_ok {JX Apis Auth : Type} (o : StepReportReleasesOptions)
    (c : Collaborators JX Apis Auth) (u : Unit) (jx : JX) (apis : Apis) (url server : String)
    (auth : Auth) (p : PipelineEventsProvider)
    (h1 : c.KubeClient = Except.ok u) (h2 : c.CreateJXClient = Except.ok jx)
    (h3 : c.CreateApiExtensionsClient = Except.ok apis)
    (h4 : c.RegisterReleaseCRD apis = none)
    (h5 : c.ensureAddonServiceAvailable c.esServiceName = Except.ok url)
    (h6 : c.getAddonAuthByKind c.ValueKindRelease url = Except.ok (server, auth))
    (h7 : c.NewElasticsearchProvider server auth = Except.ok p) :
    Run o c =
      { trace := fullTrace
        world := deliver p (c.informer jx o.currentNamespace) {}
        stop := some makeChan
        outcome := Outcome.blocked } := by
  simp only [Run, h1, h2, h3, h4, h5, h6, h7, watchPipelineReleases]
  rfl

/-- Either all seven bootstrap steps succeed, or `Run` returns a non-nil error without having
started the watch, made the `stop` channel or called the sink. -/
theorem Run_ok_or_error {JX Apis Auth : Type} (o : StepReportReleasesOptions)
    (c : Collaborators JX Apis Auth) :
    bootstrapSucceeds c ∨
    ((∃ err, (Run o c).outcome = Outcome.returned (some err)) ∧
      watchStarted (Run o c) = false ∧ (Run o c).stop = none ∧
      (Run o c).world.sent = []) := by
  rcases h1 : c.KubeClient with e | u
  · right
    rw [Run_of_KubeClient_error o c e h1]
    exact ⟨⟨_, rfl⟩, rfl, rfl, rfl⟩
  rcases h2 : c.CreateJXClient with e | jx
  · right
    rw [Run_of_CreateJXClient_error o c u e h1 h2]
    exact ⟨⟨_, rfl⟩, rfl, rfl, rfl⟩
  rcases h3 : c.CreateApiExtensionsClient with e | apis
  · right
    rw [Run_of_CreateApiExtensionsClient_error o c u jx e h1 h2 h3]
    exact ⟨⟨_, rfl⟩, rfl, rfl, rfl⟩
  rcases h4 : c.RegisterReleaseCRD apis with _ | e
  swap
  · right
    rw [Run_of_RegisterReleaseCRD_error o c u jx apis e h1 h2 h3 h4]
    exact ⟨⟨_, rfl⟩, rfl, rfl, rfl⟩
  rcases h5 : c.ensureAddonServiceAvailable c.esServiceName with e | url
  · right
    rw [Run_of_ensureAddonServiceAvailable_error o c u jx apis e h1 h2 h3 h4 h5]
    exact ⟨⟨_, rfl⟩, rfl, rfl, rfl⟩
  rcases h6 : c.getAddonAuthByKind c.ValueKindRelease url with e | ⟨server, auth⟩
  · right
    rw [Run_of_getAddonAuthByKind_error o c u jx apis url e h1 h2 h3 h4 h5 h6]
    exact ⟨⟨_, rfl⟩, rfl, rfl, rfl⟩
  rcases h7 : c.NewElasticsearchProvider server auth with e | p
  · right
    rw [Run_of_NewElasticsearchProvider_error o c u jx apis url server auth e
      h1 h2 h3 h4 h5 h6 h7]
    exact ⟨⟨_, rfl⟩, rfl, rfl, rfl⟩
  exact Or.inl ⟨u, jx, apis, url, server, auth, p, h1, h2, h3, h4, h5, h6, h7⟩

/-- A step that fails and a successful bootstrap exclude each other. -/
theorem not_bootstrapSucceeds_of_someStepFails {JX Apis Auth : Type}
    (c : Collaborators JX Apis Auth) (hf : someStepFails c) : ¬ bootstrapSucceeds c := by
  rintro ⟨u, jx, apis, url, server, auth, p, h1, h2, h3, h4, h5, h6, h7⟩
  rcases hf with ⟨e, h⟩ | ⟨e, h⟩ | ⟨e, h⟩ | ⟨a, e, h, hh⟩ | ⟨e, h⟩ | ⟨x, e, h, hh⟩ |
    ⟨x, sv, au, e, h, hh, hhh⟩
  · rw [h1] at h
    cases h
  · rw [h2] at h
    cases h
  · rw [h3] at h
    cases h
  · rw [h3] at h
    cases h
    rw [h4] at hh
    cases hh
  · rw [h5] at h
    cases h
  · rw [h5] at h
    cases h
    rw [h6] at hh
    cases hh
  · rw [h5] at h
    cases h
    rw [h6] at hh
    cases hh
    rw [h7] at hhh
    cases hhh

/-! ## Sink failures -/

/-- C5: a sink delivery failure is never escalated.  If `SendRelease` returns an error for the
release of an Add or Update notification, the handler logs that error after its informational
line and returns normally (`handle` is total); the next notification carrying a release is
still passed to `SendRelease`; and an error result of `Run` can only come from before the watch
was started, so no sink error reaches it. -/
theorem C5_sink_failure_is_not_fatal {JX Apis Auth : Type} (o : PipelineEventsProvider)
    (w : World) (n next : Notification) (r rnext : Release) (e : String)
    (opts : StepReportReleasesOptions) (c : Collaborators JX Apis Auth)
    (hn : payload n = some r) (hfail : o.SendRelease w.sent r = some e)
    (hnext : payload next = some rnext) :
    (∃ line, handle o n w =
      { sent := w.sent ++ [r]
        log := w.log ++ [LogEntry.info line, LogEntry.error (e ++ "\n")] }) ∧
    (handle o next (handle o n w)).sent = w.sent ++ [r, rnext] ∧
    (∀ err, (Run opts c).outcome = Outcome.returned (some err) →
      watchStarted (Run opts c) = false) ∧
    (∀ (p : PipelineEventsProvider) (jxClient : JX) (ns : String) (w0 : World),
      (watchPipelineReleases c p jxClient ns w0).outcome = Outcome.blocked) := by
  refine ⟨?_, ?_, ?_, ?_⟩
  · obtain ⟨line, hl⟩ := handle_of_payload o n r w hn
    refine ⟨line, ?_⟩
    rw [hl, hfail]
  · rw [handle_sent_of_payload o next rnext _ hnext, handle_sent_of_payload o n r w hn]
    simp
  · intro err herr
    rcases Run_cases opts c with ⟨_, hb, _, _⟩ | ⟨_, _, _, _, _, _, _, _, hw⟩
    · rw [hb] at herr
      cases herr
    · exact hw
  · intro p jxClient ns w0
    rfl

/-- Witness for C5: the sink rejects `jx/r1`, then `jx/r2` is still
sent; the run that delivers both blocks in the watch with both releases handed to the sink. -/
theorem C5_sink_failure_is_not_fatal_witness :
    payload (Notification.add (Obj.release r1)) = some r1 ∧
    failProvider.SendRelease [] r1 = some "connection refused" ∧
    payload (Notification.add (Obj.release r2)) = some r2 ∧
    (handle failProvider (Notification.add (Obj.release r2))
      (handle failProvider (Notification.add (Obj.release r1)) {})).sent = [] ++ [r1, r2] ∧
    (Run {} (demoCollaborators failProvider
      [Notification.add (Obj.release r1), Notification.add (Obj.release r2)])).outcome =
        Outcome.blocked :=
  ⟨rfl, rfl, rfl,
    (C5_sink_failure_is_not_fatal failProvider {} (Notification.add (Obj.release r1))
      (Notification.add (Obj.release r2)) r1 r2 "connection refused" {}
      (demoCollaborators failProvider
        [Notification.add (Obj.release r1), Notification.add (Obj.release r2)])
      rfl rfl rfl).2.1,
    by decide⟩

/-! ## Retries -/

/-- C6, as stated, fails: with a sink that rejects every call, an Add (or Update) notification
for `jx/r1` leads to exactly one `SendRelease` call; the delivery is not attempted again, and
the error is logged right after that single attempt. -/
theorem C6_failed_delivery_is_not_retried :
    failProvider.SendRelease [] r1 = some "connection refused" ∧
    handle failProvider (Notification.add (Obj.release r1)) {} =
      { sent := [r1]
        log := [LogEntry.info "New activity added r1\n",
                LogEntry.error "connection refused\n"] } ∧
    (handle failProvider (Notification.add (Obj.release r1)) {}).sent.count r1 = 1 ∧
    (handle failProvider (Notification.update (Obj.release r1) (Obj.release r1v2))
      {}).sent.count r1v2 = 1 := by
  decide

/-- C6, amended: each sink call gets exactly one attempt.  For every Add or Update notification
carrying a release, `SendRelease` is called exactly once; when that call fails the event is
dropped at once and the failure is logged, once. -/
theorem C6_single_attempt (o : PipelineEventsProvider) (w : World) (n : Notification)
    (r : Release) (e : String)
    (hn : payload n = some r) (hfail : o.SendRelease w.sent r = some e) :
    (handle o n w).sent = w.sent ++ [r] ∧
    (handle o n w).sent.length = w.sent.length + 1 ∧
    (handle o n w).log.drop (w.log.length + 1) = [LogEntry.error (e ++ "\n")] := by
  obtain ⟨line, hl⟩ := handle_of_payload o n r w hn
  rw [hfail] at hl
  rw [hl]
  refine ⟨rfl, by simp, ?_⟩
  simp [List.drop_append_eq_append_drop]

/-- Witness for C6 (amended): an Update to `jx/r1` at version 2 with a rejecting sink. -/
theorem C6_single_attempt_witness :
    payload (Notification.update (Obj.release r1) (Obj.release r1v2)) = some r1v2 ∧
    failProvider.SendRelease [] r1v2 = some "connection refused" ∧
    (handle failProvider (Notification.update (Obj.release r1) (Obj.release r1v2)) {}).sent =
      [] ++ [r1v2] :=
  ⟨rfl, rfl,
    (C6_single_attempt failProvider {} (Notification.update (Obj.release r1) (Obj.release r1v2))
      r1v2 "connection refused" rfl rfl).1⟩

/-! ## The watch flag -/

/-- C7 fails on the code: `Run` never reads `Watch`.  For all options and collaborators the
result of `Run` is the same with `Watch = true` and with `Watch = false`; with the default
`Watch = false` and a successful bootstrap, `Run` starts the watch and blocks in it. -/
theorem C7_watch_flag_is_ignored {JX Apis Auth : Type} (o : StepReportReleasesOptions)
    (c : Collaborators JX Apis Auth) :
    Run { o with Watch := true } c = Run { o with Watch := false } c ∧
    (Run { Watch := false }
      (demoCollaborators okProvider [Notification.add (Obj.release r1)])) =
      { trace := fullTrace
        world := { sent := [r1], log := [LogEntry.info "New activity added r1\n"] }
        stop := some makeChan
        outcome := Outcome.blocked } := by
  refine ⟨rfl, ?_⟩
  decide

/-! ## Bootstrap -/

/-- C8: `Run` fails fast on any fatal startup condition.  For each of the seven bootstrap
steps (`KubeClient`, `CreateJXClient`, `CreateApiExtensionsClient`, `RegisterReleaseCRD`,
`ensureAddonServiceAvailable`, `getAddonAuthByKind`, `NewElasticsearchProvider`): if the steps
before it succeeded and it returns an error, `Run` returns a non-nil error built from that
error, the steps executed are exactly those up to and including the failing one, and the watch
is not started.  If any one of the steps returns an error, `Run` returns a non-nil error and
never starts the watch nor calls the sink.  The watch is started only when all seven steps
succeeded, and then they were executed in program order before it. -/
theorem C8_run_fails_fast {JX Apis Auth : Type} (o : StepReportReleasesOptions)
    (c : Collaborators JX Apis Auth) :
    (∀ e, c.KubeClient = Except.error e →
      Run o c =
        { trace := [(Step.KubeClient, some e)]
          outcome := Outcome.returned
            (some ("cannot connect to kubernetes cluster: " ++ e)) }) ∧
    (∀ u e, c.KubeClient = Except.ok u → c.CreateJXClient = Except.error e →
      Run o c =
        { trace := [(Step.KubeClient, none), (Step.CreateJXClient, some e)]
          outcome := Outcome.returned (some ("cannot create jx client: " ++ e)) }) ∧
    (∀ u jx e, c.KubeClient = Except.ok u → c.CreateJXClient = Except.ok jx →
      c.CreateApiExtensionsClient = Except.error e →
      Run o c =
        { trace := [(Step.KubeClient, none), (Step.CreateJXClient, none),
            (Step.CreateApiExtensionsClient, some e)]
          outcome := Outcome.returned (some e) }) ∧
    (∀ u jx apis e, c.KubeClient = Except.ok u → c.CreateJXClient = Except.ok jx →
      c.CreateApiExtensionsClient = Except.ok apis → c.RegisterReleaseCRD apis = some e →
      Run o c =
        { trace := [(Step.KubeClient, none), (Step.CreateJXClient, none),
            (Step.CreateApiExtensionsClient, none), (Step.RegisterReleaseCRD, some e)]
          outcome := Outcome.returned (some e) }) ∧
    (∀ u jx apis e, c.KubeClient = Except.ok u → c.CreateJXClient = Except.ok jx →
      c.CreateApiExtensionsClient = Except.ok apis → c.RegisterReleaseCRD apis = none →
      c.ensureAddonServiceAvailable c.esServiceName = Except.error e →
      Run o c =
        { trace := [(Step.KubeClient, none), (Step.CreateJXClient, none),
            (Step.CreateApiExtensionsClient, none), (Step.RegisterReleaseCRD, none),
            (Step.ensureAddonServiceAvailable, some e)]
          world := { log := [LogEntry.warn ("no " ++ c.esServiceName ++
            " service found, are you in your teams dev environment?  Type `jx env` to switch.\n")] }
          outcome := Outcome.returned (some
            ("try running `jx create addon pipeline-events` in your teams dev environment: "
              ++ e)) }) ∧
    (∀ u jx apis url e, c.KubeClient = Except.ok u → c.CreateJXClient = Except.ok jx →
      c.CreateApiExtensionsClient = Except.ok apis → c.RegisterReleaseCRD apis = none →
      c.ensureAddonServiceAvailable c.esServiceName = Except.ok url →
      c.getAddonAuthByKind c.ValueKindRelease url = Except.error e →
      Run o c =
        { trace := [(Step.KubeClient, none), (Step.CreateJXClient, none),
            (Step.CreateApiExtensionsClient, none), (Step.RegisterReleaseCRD, none),
            (Step.ensureAddonServiceAvailable, none), (Step.getAddonAuthByKind, some e)]
          outcome := Outcome.returned (some
            ("error getting " ++ c.ValueKindRelease ++ " auth details, " ++ e)) }) ∧
    (∀ u jx apis url server auth e, c.KubeClient = Except.ok u →
      c.CreateJXClient = Except.ok jx →
      c.CreateApiExtensionsClient = Except.ok apis → c.RegisterReleaseCRD apis = none →
      c.ensureAddonServiceAvailable c.esServiceName = Except.ok url →
      c.getAddonAuthByKind c.ValueKindRelease url = Except.ok (server, auth) →
      c.NewElasticsearchProvider server auth = Except.error e →
      Run o c =
        { trace := [(Step.KubeClient, none), (Step.CreateJXClient, none),
            (Step.CreateApiExtensionsClient, none), (Step.RegisterReleaseCRD, none),
            (Step.ensureAddonServiceAvailable, none), (Step.getAddonAuthByKind, none),
            (Step.NewElasticsearchProvider, some e)]
          outcome := Outcome.returned
            (some ("error creating elasticsearch provider, " ++ e)) }) ∧
    (someStepFails c →
      (∃ err, (Run o c).outcome = Outcome.returned (some err)) ∧
      watchStarted (Run o c) = false ∧ (Run o c).stop = none ∧
      (Run o c).world.sent = []) ∧
    (watchStarted (Run o c) = true →
      bootstrapSucceeds c ∧ (Run o c).trace = fullTrace) := by
  refine ⟨Run_of_KubeClient_error o c, Run_of_CreateJXClient_error o c,
    Run_of_CreateApiExtensionsClient_error o c, Run_of_RegisterReleaseCRD_error o c,
    Run_of_ensureAddonServiceAvailable_error o c, Run_of_getAddonAuthByKind_error o c,
    Run_of_NewElasticsearchProvider_error o c, ?_, ?_⟩
  · intro hf
    rcases Run_ok_or_error o c with hok | herr
    · exact absurd hok (not_bootstrapSucceeds_of_someStepFails c hf)
    · exact herr
  · intro hstarted
    rcases Run_ok_or_error o c with hok | ⟨_, hw, _, _⟩
    · refine ⟨hok, ?_⟩
      obtain ⟨u, jx, apis, url, server, auth, p, h1, h2, h3, h4, h5, h6, h7⟩ := hok
      rw [Run_of_bootstrap_ok o c u jx apis url server auth p h1 h2 h3 h4 h5 h6 h7]
    · rw [hw] at hstarted
      cases hstarted

/-- Witness for C8: registering the Release CRD is refused, so `Run` stops there with that
error, having executed four steps; with a successful bootstrap the watch is started after all
seven steps. -/
theorem C8_run_fails_fast_witness :
    noCRDCollaborators.KubeClient = Except.ok () ∧
    noCRDCollaborators.CreateJXClient = Except.ok () ∧
    noCRDCollaborators.CreateApiExtensionsClient = Except.ok () ∧
    noCRDCollaborators.RegisterReleaseCRD () = some "forbidden" ∧
    Run {} noCRDCollaborators =
      { trace := [(Step.KubeClient, none), (Step.CreateJXClient, none),
          (Step.CreateApiExtensionsClient, none), (Step.RegisterReleaseCRD, some "forbidden")]
        outcome := Outcome.returned (some "forbidden") } ∧
    someStepFails noCRDCollaborators ∧
    watchStarted (Run {} noCRDCollaborators) = false ∧
    watchStarted (Run {} (demoCollaborators okProvider [])) = true ∧
    (Run {} (demoCollaborators okProvider [])).trace = fullTrace :=
  ⟨rfl, rfl, rfl, rfl,
    (C8_run_fails_fast {} noCRDCollaborators).2.2.2.1 () () () "forbidden" rfl rfl rfl rfl,
    Or.inr (Or.inr (Or.inr (Or.inl ⟨(), "forbidden", rfl, rfl⟩))),
    ((C8_run_fails_fast {} noCRDCollaborators).2.2.2.2.2.2.2.1
      (Or.inr (Or.inr (Or.inr (Or.inl ⟨(), "forbidden", rfl, rfl⟩))))).2.1,
    by decide,
    ((C8_run_fails_fast {} (demoCollaborators okProvider [])).2.2.2.2.2.2.2.2 (by decide)).2⟩

/-! ## No shutdown path -/

/-- C9: once started, the watch blocks forever.  For every input `watchPipelineReleases` ends
in `select {}` and never returns, and the `stop` channel it made is neither closed nor written
to.  Consequently `Run` never returns `nil`: it blocks in the watch, or it returns a non-nil
error produced by a bootstrap step before the watch was started. -/
theorem C9_watch_never_returns {JX Apis Auth : Type} (o : StepReportReleasesOptions)
    (c : Collaborators JX Apis Auth) (p : PipelineEventsProvider) (jxClient : JX)
    (ns : String) (w : World) :
    (watchPipelineReleases c p jxClient ns w).outcome = Outcome.blocked ∧
    (watchPipelineReleases c p jxClient ns w).stop = some { closed := false, written := 0 } ∧
    (Run o c).outcome ≠ Outcome.returned none ∧
    ((Run o c).outcome = Outcome.blocked ∨
      ∃ err pre s e, (Run o c).outcome = Outcome.returned (some err) ∧
        (Run o c).trace = pre ++ [(s, some e)] ∧ watchStarted (Run o c) = false) ∧
    ((Run o c).stop = none ∨ (Run o c).stop = some { closed := false, written := 0 }) := by
  refine ⟨rfl, rfl, ?_, ?_, ?_⟩
  · rcases Run_cases o c with ⟨_, hb, _, _⟩ | ⟨_, _, _, err, _, _, hout, _, _⟩
    · rw [hb]
      simp
    · rw [hout]
      simp
  · rcases Run_cases o c with ⟨_, hb, _, _⟩ | ⟨pre, s, e, err, ht, _, hout, _, hw⟩
    · exact Or.inl hb
    · exact Or.inr ⟨err, pre, s, e, hout, ht, hw⟩
  · rcases Run_cases o c with ⟨_, _, hs, _⟩ | ⟨_, _, _, _, _, _, _, hs, _⟩
    · exact Or.inr hs
    · exact Or.inl hs

/-! ## The log line of the Update handler -/

/-- C10 fails on the code: the informational line of the Update handler carries the name of the
zero-valued `activity`, which is empty, and not the name of the release it then sends.  For
every Update whose new object is a release the line is `"Updated activity added \n"`, while
the Add handler logs the name of the release; at `jx/r1` the two lines are shown. -/
theorem C10_update_logs_empty_name (o : PipelineEventsProvider) (oldObj : Obj) (r : Release)
    (w : World) :
    UpdateFunc o oldObj (Obj.release r) w =
      { sent := w.sent ++ [r]
        log := w.log ++ LogEntry.info "Updated activity added \n" ::
          (match o.SendRelease w.sent r with
            | some e => [LogEntry.error (e ++ "\n")]
            | none => []) } ∧
    AddFunc o (Obj.release r) w =
      { sent := w.sent ++ [r]
        log := w.log ++ LogEntry.info ("New activity added " ++ r.ObjectMeta.Name ++ "\n") ::
          (match o.SendRelease w.sent r with
            | some e => [LogEntry.error (e ++ "\n")]
            | none => []) } ∧
    UpdateFunc okProvider (Obj.release r1) (Obj.release r1v2) {} =
      { sent := [r1v2], log := [LogEntry.info "Updated activity added \n"] } ∧
    AddFunc okProvider (Obj.release r1v2) {} =
      { sent := [r1v2], log := [LogEntry.info "New activity added r1\n"] } := by
  refine ⟨?_, ?_, by decide, by decide⟩
  · simp only [UpdateFunc]
    cases o.SendRelease w.sent r <;> simp [activity]
  · simp only [AddFunc]
    cases o.SendRelease w.sent r <;> simp

end StepReportReleases
